import Mathlib

/-
Shallow embedding of the sqlite-backed symbol store in
src/internal/db/sqlite.go (package db of profiles/ipsw).

The store keeps six entity tables plus the macho_syms association table.
Tables are modelled as lists of rows held in primary-key (insertion)
order; generated integer identities come from a `nextIpswId` counter
(the sqlite autoincrement).  Addresses and the symbol range bounds are
uint64 values in the source; the queries only compare them, so they are
modelled as `Nat` (no overflow is possible in a comparison).

The entity definitions live in the `internal/model` package, which is
not part of the sources here; the fields used below are the ones the
queries in sqlite.go name directly (symbols.id, symbols.start,
symbols.end, macho_syms.symbol_id, macho_syms.macho_uuid, machos.uuid)
plus, for the remaining entities, the attributes the specification
gives them (Artifact: generated identity, natural key `name`, other
columns represented by `version`).
-/

namespace IpswDB

/-- A row of the `symbols` table.  Columns are the ones named by the
queries in sqlite.go: the generated primary key `id`, the symbol
`name`, and the half-open address range `start` / `end` (the `end`
column is called `endAddr` here because `end` is a Lean keyword). -/
structure Symbol where
  id : Nat
  name : String
  start : Nat
  endAddr : Nat
deriving DecidableEq

/-- A row of the `macho_syms` association table binding a symbol to a
binary image by the image's UUID. -/
structure MachoSym where
  machoUuid : String
  symbolId : Nat
deriving DecidableEq

/-- A row of the `machos` table (a BinaryImage); the resolution queries
only use its `uuid` column. -/
structure Macho where
  uuid : String
deriving DecidableEq

/-- Modelled from the spec: an Artifact row (`model.Ipsw`; the model
package is not among the sources).  `id` is the generated identity
(0 = unset, the Go zero value), `name` the unique natural key, and
`version` stands for the remaining non-key columns. -/
structure Ipsw where
  id : Nat
  name : String
  version : String
deriving DecidableEq

/-- Modelled from the spec: a Device row (hardware target). -/
structure Device where
  id : Nat
  name : String
deriving DecidableEq

/-- Modelled from the spec: a Kernelcache row. -/
structure Kernelcache where
  id : Nat
  name : String
deriving DecidableEq

/-- Modelled from the spec: a DyldSharedCache row. -/
structure DyldSharedCache where
  id : Nat
  name : String
deriving DecidableEq

/-- Errors surfaced by the store: `notFound` models `model.ErrNotFound`
(mapped from `gorm.ErrRecordNotFound`); `storage` models an underlying
storage failure propagated unmodified. -/
inductive DBError where
  | notFound : DBError
  | storage : String → DBError
deriving DecidableEq

/-- The state of the sqlite store after migration: one list of rows per
table, in primary-key (insertion) order, plus the autoincrement counter
for the ipsws table. -/
structure DB where
  ipsws : List Ipsw
  devices : List Device
  kernelcaches : List Kernelcache
  sharedCaches : List DyldSharedCache
  machos : List Macho
  symbols : List Symbol
  machoSyms : List MachoSym
  nextIpswId : Nat
deriving DecidableEq

/-- The join condition of GetSymbol / GetSymbols in sqlite.go:
`JOIN macho_syms ON macho_syms.symbol_id = symbols.id`,
`JOIN machos ON machos.uuid = macho_syms.macho_uuid`, and the
`machos.uuid = ?` filter, evaluated for one symbol row. -/
def joinedMatch (db : DB) (uuid : String) (s : Symbol) : Bool :=
  db.machoSyms.any fun l =>
    l.symbolId == s.id && db.machos.any fun m =>
      m.uuid == l.machoUuid && m.uuid == uuid

/-- The spec-level association: symbol `s` is linked to the image with
UUID `uuid` through a row of the association table. -/
def LinkedTo (db : DB) (uuid : String) (s : Symbol) : Prop :=
  ∃ l ∈ db.machoSyms, l.symbolId = s.id ∧ l.machoUuid = uuid

instance (db : DB) (uuid : String) (s : Symbol) : Decidable (LinkedTo db uuid s) :=
  List.decidableBEx _ db.machoSyms

/-- GetSymbol from sqlite.go: the joined query with the extra range
condition `symbols.start <= ? AND ? < symbols.end`; `First` returns the
first matching row in primary-key order (the stored order here) or
`gorm.ErrRecordNotFound`, which the function maps to `ErrNotFound`. -/
def GetSymbol (db : DB) (uuid : String) (address : Nat) : Except DBError Symbol :=
  match db.symbols.find? (fun s =>
      joinedMatch db uuid s && decide (s.start ≤ address) && decide (address < s.endAddr)) with
  | some s => Except.ok s
  | none => Except.error DBError.notFound

/-- The rows the GetSymbols query computes: the symbols joined to
`macho_syms` and `machos`, restricted to the given image UUID (one row
per matching symbol row). -/
def symbolRowsFor (db : DB) (uuid : String) : List Symbol :=
  db.symbols.filter fun s => joinedMatch db uuid s

/-- Outcome of a call that can end in a Go runtime panic instead of
returning. -/
inductive GoOutcome (α : Type) where
  | returns : α → GoOutcome α
  | panics : String → GoOutcome α
deriving DecidableEq

/-- GetSymbols from sqlite.go.  The function declares `var syms
[]*model.Symbol` and calls `Find(syms)`: the slice is passed by value,
not by address, so the scan destination is unaddressable.  After
running the joined query the ORM's scan calls reflect.Value.Set on
that destination and the call panics with "reflect: reflect.Value.Set
using unaddressable value" instead of returning; the linked rows are
never returned and the dead `ErrRecordNotFound` branch (which `Find`
would not produce anyway) never signals ErrNotFound.  The rows the
query computes before the panic are `symbolRowsFor db uuid`. -/
def GetSymbols (db : DB) (uuid : String) : GoOutcome (Except DBError (List Symbol)) :=
  let _rows := symbolRowsFor db uuid
  GoOutcome.panics "reflect: reflect.Value.Set using unaddressable value"

/-- Create from sqlite.go: `s.db.FirstOrCreate(value)` is issued with
no Where clause, and the ORM builds the lookup's conditions only from
the destination record's non-zero primary-key fields.  The primary key
is the generated `id` (spec §3), so a candidate with `id` zero adds no
condition at all and the lookup "finds" the first row of the whole
table in primary-key order, inserting the candidate (with a generated
identity) only when the table is empty; a candidate with a non-zero
`id` is looked up by that id and inserted as-is when absent.  The
result pairs the store state with the populated record, mirroring the
in-place mutation of `value`; the error channel mirrors the returned
`error`.  (The source's commented-out OnConflict-DoNothing insert and
its doc comment show keyed dedup insertion was the intent; this
definition follows what the code does.) -/
def Create (db : DB) (cand : Ipsw) : Except DBError (DB × Ipsw) :=
  match db.ipsws.find? (fun r => cand.id == 0 || cand.id == r.id) with
  | some r => Except.ok (db, r)
  | none =>
    if cand.id == 0 then
      Except.ok
        ({ db with
            ipsws := db.ipsws ++ [{ cand with id := db.nextIpswId }],
            nextIpswId := db.nextIpswId + 1 },
          { cand with id := db.nextIpswId })
    else
      Except.ok
        ({ db with ipsws := db.ipsws ++ [cand], nextIpswId := db.nextIpswId + 1 },
          cand)

/-- `n` repeated Create calls, each one re-presenting the record the
previous call returned (in Go the same `value` pointer, populated by
`FirstOrCreate`).  The error branch cannot occur in the pure model. -/
def createIter : Nat → DB → Ipsw → DB × Ipsw
  | 0, db, v => (db, v)
  | n + 1, db, v =>
    match Create db v with
    | Except.ok p => createIter n p.1 p.2
    | Except.error _ => (db, v)

/-- The number of stored Artifact rows whose natural key is `n`. -/
def countName (db : DB) (n : String) : Nat :=
  (db.ipsws.filter fun r => r.name == n).length

/-- The zero value of `model.Ipsw`. -/
def zeroIpsw : Ipsw :=
  { id := 0, name := "", version := "" }

/-- Get from sqlite.go: `First(&i, key)` fetches the row with the given
primary key into `i` when one exists; the query's result (including
`ErrRecordNotFound`) is discarded and `i, nil` is returned, so a
missing key yields the zero-value record as a success. -/
def Get (db : DB) (key : Nat) : Except DBError Ipsw :=
  match db.ipsws.find? (fun r => r.id == key) with
  | some r => Except.ok r
  | none => Except.ok zeroIpsw

/-- GetByName from sqlite.go: `i := &model.Ipsw{Name: name}` followed
by `s.db.First(&i)`.  The ORM takes query conditions from a destination
record only from its non-zero primary-key fields; `Name` is not the
primary key (the generated `id` is, spec §3), so no condition is added
and First returns the first row of the table in primary-key order
regardless of `name`, producing `gorm.ErrRecordNotFound` — mapped to
`ErrNotFound` — only when the table is empty.  (The function's own doc
comment describes a by-name lookup; this definition follows what the
code does.) -/
def GetByName (db : DB) (name : String) : Except DBError Ipsw :=
  match db.ipsws.head? with
  | some r => Except.ok r
  | none => Except.error DBError.notFound

/-- Save from sqlite.go: `db.Save(value)` inserts the record when its
primary key is the zero value; otherwise it runs a full UPDATE of every
column of the row with that key (falling back to an insert when the
UPDATE affected no rows). -/
def Save (db : DB) (v : Ipsw) : Except DBError (DB × Ipsw) :=
  if v.id == 0 then
    Except.ok
      ({ db with
          ipsws := db.ipsws ++ [{ v with id := db.nextIpswId }],
          nextIpswId := db.nextIpswId + 1 },
        { v with id := db.nextIpswId })
  else if db.ipsws.any (fun r => r.id == v.id) then
    Except.ok
      ({ db with ipsws := db.ipsws.map fun r => if r.id == v.id then v else r }, v)
  else
    Except.ok ({ db with ipsws := db.ipsws ++ [v] }, v)

/-- Delete from sqlite.go: `s.db.Delete(&model.Ipsw{}, key)` removes
the Artifact rows with the given primary key; the call's result —
including any storage failure of the underlying delete, modelled by the
`fault` parameter — is discarded and the function returns `nil`
unconditionally. -/
def Delete (db : DB) (key : Nat) (fault : Option DBError) : DB × Option DBError :=
  let db2 :=
    match fault with
    | some _ => db
    | none => { db with ipsws := db.ipsws.filter fun r => !(r.id == key) }
  (db2, none)

/-- The worked example of spec §8: image `U` with symbols
`("a", 100, 200)` and `("b", 200, 300)`. -/
def symA : Symbol :=
  { id := 1, name := "a", start := 100, endAddr := 200 }

/-- Second symbol of the worked example. -/
def symB : Symbol :=
  { id := 2, name := "b", start := 200, endAddr := 300 }

/-- Store holding the worked example: one image `U` linked to `symA`
and `symB`. -/
def exDB : DB :=
  { ipsws := [], devices := [], kernelcaches := [], sharedCaches := [],
    machos := [{ uuid := "U" }],
    symbols := [symA, symB],
    machoSyms := [{ machoUuid := "U", symbolId := 1 }, { machoUuid := "U", symbolId := 2 }],
    nextIpswId := 1 }

/-- Scoping example of spec §8: symbol `("x", 100, 200)` interned once
per image, linked to `U1`. -/
def symX1 : Symbol :=
  { id := 1, name := "x", start := 100, endAddr := 200 }

/-- A different symbol row with the identical range, linked to `U2`. -/
def symX2 : Symbol :=
  { id := 2, name := "x", start := 100, endAddr := 200 }

/-- Store with two images `U1`, `U2` and identical-range symbols linked
to one image each. -/
def ex2DB : DB :=
  { ipsws := [], devices := [], kernelcaches := [], sharedCaches := [],
    machos := [{ uuid := "U1" }, { uuid := "U2" }],
    symbols := [symX1, symX2],
    machoSyms := [{ machoUuid := "U1", symbolId := 1 }, { machoUuid := "U2", symbolId := 2 }],
    nextIpswId := 1 }

/-- A freshly migrated, empty store. -/
def emptyDB : DB :=
  { ipsws := [], devices := [], kernelcaches := [], sharedCaches := [],
    machos := [], symbols := [], machoSyms := [], nextIpswId := 1 }

/-- A candidate Artifact with only natural-key and payload fields set. -/
def cand0 : Ipsw :=
  { id := 0, name := "iPhone15,2_16.3_20D47_Restore.ipsw", version := "16.3" }

/-- A stored Artifact row with generated identity 1. -/
def row1 : Ipsw :=
  { id := 1, name := "iPhone15,2_16.3_20D47_Restore.ipsw", version := "16.3" }

/-- A store holding exactly `row1`. -/
def dbOne : DB :=
  { emptyDB with ipsws := [row1], nextIpswId := 2 }

/-- `row1` with every non-key column revised, same identity. -/
def rowUpd : Ipsw :=
  { id := 1, name := "iPhone15,2_16.3_20D47_Restore.ipsw", version := "17.0" }

/-- An unrelated artifact occupying the first (lowest-id) row of the
ipsws table. -/
def rowOther : Ipsw :=
  { id := 1, name := "otherArtifact.ipsw", version := "1.0" }

/-- A store whose only artifact is `rowOther` — no row carries
`cand0`'s natural key. -/
def dbOther : DB :=
  { emptyDB with ipsws := [rowOther], nextIpswId := 2 }

/-- A stored artifact whose natural key equals `cand0`'s. -/
def rowK : Ipsw :=
  { id := 2, name := "iPhone15,2_16.3_20D47_Restore.ipsw", version := "16.3" }

/-- A store holding `rowOther` first and, behind it, `rowK` — a row
matching `cand0`'s natural key that is not the table's first row. -/
def dbTwo : DB :=
  { emptyDB with ipsws := [rowOther, rowK], nextIpswId := 3 }

theorem linkedTo_of_joinedMatch {db : DB} {u : String} {s : Symbol}
    (h : joinedMatch db u s = true) : LinkedTo db u s := by
  unfold joinedMatch at h
  simp only [List.any_eq_true, Bool.and_eq_true, beq_iff_eq] at h
  obtain ⟨l, hl, hid, m, hm, hmu, hmu2⟩ := h
  exact ⟨l, hl, hid, hmu.symm.trans hmu2⟩

theorem joinedMatch_of_linkedTo {db : DB} {u : String} {s : Symbol}
    (hm : ∃ m ∈ db.machos, m.uuid = u) (h : LinkedTo db u s) :
    joinedMatch db u s = true := by
  obtain ⟨m, hmm, hmu⟩ := hm
  obtain ⟨l, hl, hid, hlu⟩ := h
  unfold joinedMatch
  simp only [List.any_eq_true, Bool.and_eq_true, beq_iff_eq]
  exact ⟨l, hl, hid, m, hmm, by rw [hmu, hlu], hmu⟩

theorem getSymbol_ok_sound {db : DB} {u : String} {a : Nat} {s : Symbol}
    (h : GetSymbol db u a = Except.ok s) :
    s ∈ db.symbols ∧ LinkedTo db u s ∧ s.start ≤ a ∧ a < s.endAddr := by
  unfold GetSymbol at h
  split at h
  next t hf =>
    injection h with h
    subst h
    have hp := List.find?_some hf
    simp only [Bool.and_eq_true, decide_eq_true_eq] at hp
    exact ⟨List.mem_of_find?_eq_some hf, linkedTo_of_joinedMatch hp.1.1, hp.1.2, hp.2⟩
  next hf => exact absurd h (by simp)

theorem getSymbol_notFound_of_no_match {db : DB} {u : String} {a : Nat}
    (h : ∀ s ∈ db.symbols, ¬(LinkedTo db u s ∧ s.start ≤ a ∧ a < s.endAddr)) :
    GetSymbol db u a = Except.error DBError.notFound := by
  unfold GetSymbol
  have hf : db.symbols.find? (fun s =>
      joinedMatch db u s && decide (s.start ≤ a) && decide (a < s.endAddr)) = none := by
    rw [List.find?_eq_none]
    intro s hs hp
    simp only [Bool.and_eq_true, decide_eq_true_eq] at hp
    exact h s hs ⟨linkedTo_of_joinedMatch hp.1.1, hp.1.2, hp.2⟩
  rw [hf]

theorem getSymbol_ok_of_match {db : DB} {u : String} {a : Nat}
    (hm : ∃ m ∈ db.machos, m.uuid = u)
    (hs : ∃ s ∈ db.symbols, LinkedTo db u s ∧ s.start ≤ a ∧ a < s.endAddr) :
    ∃ t, GetSymbol db u a = Except.ok t := by
  obtain ⟨s, hsm, hl, h1, h2⟩ := hs
  have hsome : (db.symbols.find? (fun s =>
      joinedMatch db u s && decide (s.start ≤ a) && decide (a < s.endAddr))).isSome := by
    rw [List.find?_isSome]
    refine ⟨s, hsm, ?_⟩
    simp only [Bool.and_eq_true, decide_eq_true_eq]
    exact ⟨⟨joinedMatch_of_linkedTo hm hl, h1⟩, h2⟩
  obtain ⟨t, ht⟩ := Option.isSome_iff_exists.mp hsome
  exact ⟨t, by unfold GetSymbol; rw [ht]⟩

/-- Claim C1: among the symbols linked to the image with the given
UUID, GetSymbol returns one whose half-open range `[start, end)`
contains the address (start inclusive, end exclusive), returns some
such symbol whenever one exists, and signals ErrNotFound when no
symbol linked to that UUID contains the address; on the worked example
(image `U` with symbols `("a",100,200)` and `("b",200,300)`) it
resolves 150 to `a`, 200 to `b`, and signals ErrNotFound at 99 and
300. -/
theorem getSymbol_spec :
    (∀ db u a s, GetSymbol db u a = Except.ok s →
        s ∈ db.symbols ∧ LinkedTo db u s ∧ s.start ≤ a ∧ a < s.endAddr) ∧
    (∀ db u a, (∀ s ∈ db.symbols, ¬(LinkedTo db u s ∧ s.start ≤ a ∧ a < s.endAddr)) →
        GetSymbol db u a = Except.error DBError.notFound) ∧
    (∀ db u a, (∃ m ∈ db.machos, m.uuid = u) →
        (∃ s ∈ db.symbols, LinkedTo db u s ∧ s.start ≤ a ∧ a < s.endAddr) →
        ∃ t, GetSymbol db u a = Except.ok t) ∧
    GetSymbol exDB "U" 150 = Except.ok symA ∧
    GetSymbol exDB "U" 200 = Except.ok symB ∧
    GetSymbol exDB "U" 99 = Except.error DBError.notFound ∧
    GetSymbol exDB "U" 300 = Except.error DBError.notFound := by
  refine ⟨fun db u a s h => getSymbol_ok_sound h,
          fun db u a h => getSymbol_notFound_of_no_match h,
          fun db u a hm hs => getSymbol_ok_of_match hm hs,
          ?_, ?_, ?_, ?_⟩ <;> rfl

theorem getSymbol_spec_witness :
    symA ∈ exDB.symbols ∧ LinkedTo exDB "U" symA ∧
      symA.start ≤ 150 ∧ 150 < symA.endAddr :=
  getSymbol_spec.1 exDB "U" 150 symA (by rfl)

/-- Claim C2: GetSymbol is scoped to the queried image — any symbol it
returns for UUID `u` is linked to `u` through the association table, so
a symbol linked only to a different image (even with an identical
range) is never returned. -/
theorem getSymbol_scoped (db : DB) (u : String) (a : Nat) (s : Symbol)
    (h : GetSymbol db u a = Except.ok s) : LinkedTo db u s :=
  (getSymbol_ok_sound h).2.1

theorem getSymbol_scoped_witness :
    LinkedTo ex2DB "U1" symX1 ∧ ¬LinkedTo ex2DB "U1" symX2 :=
  ⟨getSymbol_scoped ex2DB "U1" 150 symX1 (by rfl), by decide⟩

/-- Claim C4 (code bug): GetSymbols can never return the symbols linked
to an image.  The result slice is passed to `Find` by value, so the
ORM's scan panics on the unaddressable destination for every store and
UUID — returning neither the linked rows nor ErrNotFound — even though
the query it runs first computes exactly the linked rows
(`[symA, symB]` for image `U` of the worked example). -/
theorem getSymbols_bug :
    (∀ db u, GetSymbols db u
      = GoOutcome.panics "reflect: reflect.Value.Set using unaddressable value") ∧
    symbolRowsFor exDB "U" = [symA, symB] :=
  ⟨fun _ _ => rfl, by decide⟩

/-- Claim C3 (code bug): create-or-find does not dedup by natural key.
FirstOrCreate is issued without conditions and the candidate's primary
key is zero, so the lookup matches the first row of the whole table:
against a store already holding an unrelated artifact, Create returns
that unrelated row and never inserts, and any number of repeated calls
still leaves zero stored rows for the candidate's natural key — while
the source's own doc comment ("creates a new entry") and its
commented-out OnConflict-DoNothing insert show keyed dedup insertion
is the intent. -/
theorem create_not_idempotent :
    Create dbOther cand0 = Except.ok (dbOther, rowOther) ∧
    rowOther.name ≠ cand0.name ∧
    countName dbOther cand0.name = 0 ∧
    createIter 3 dbOther cand0 = (dbOther, rowOther) ∧
    countName (createIter 3 dbOther cand0).1 cand0.name = 0 :=
  ⟨rfl, by decide, by decide, by decide, by decide⟩

/-- Claim C7 (code bug): duplicate natural keys never surface an error
— Create only ever succeeds in the absence of storage faults — but the
call does not return the existing record matching the candidate's
natural key: with the table non-empty it returns the table's first
row, here the unrelated `rowOther` instead of the key-matching
`rowK`. -/
theorem create_duplicate_key_no_error_but_wrong_row :
    (∀ db cand, ∃ p, Create db cand = Except.ok p) ∧
    Create dbTwo cand0 = Except.ok (dbTwo, rowOther) ∧
    rowK ∈ dbTwo.ipsws ∧ rowK.name = cand0.name ∧
    rowOther.name ≠ cand0.name := by
  refine ⟨?_, rfl, by decide, by decide, by decide⟩
  intro db cand
  unfold Create
  cases hf : db.ipsws.find? (fun r => cand.id == 0 || cand.id == r.id) with
  | some r => exact ⟨(db, r), rfl⟩
  | none =>
    by_cases h0 : (cand.id == 0) = true
    · rw [if_pos h0]; exact ⟨_, rfl⟩
    · rw [if_neg h0]; exact ⟨_, rfl⟩

theorem find?_map_replace {l : List Ipsw} {v : Ipsw}
    (h : (l.any fun r => r.id == v.id) = true) :
    (l.map fun r => if r.id == v.id then v else r).find? (fun r => r.id == v.id)
      = some v := by
  induction l with
  | nil => simp at h
  | cons a l ih =>
    by_cases ha : a.id = v.id
    · have ea : (if a.id == v.id then v else a) = v := by simp [ha]
      rw [List.map_cons, ea]
      exact List.find?_cons_of_pos _ (by simp)
    · have hbeq : (a.id == v.id) = false := beq_eq_false_iff_ne.mpr ha
      rw [List.any_cons, hbeq, Bool.false_or] at h
      have ea : (if a.id == v.id then v else a) = a := by simp [hbeq]
      rw [List.map_cons, ea, List.find?_cons_of_neg _ (by simp [hbeq])]
      exact ih h

/-- Claim C5: Save inserts a new row (with a generated identity) when
the record's identity is unset, and otherwise replaces the stored row
with that identity wholesale — every column takes the input's value —
so that a subsequent Get of the same identity returns exactly the
saved record. -/
theorem save_spec (db : DB) (v : Ipsw) :
    (v.id = 0 → Save db v = Except.ok
      ({ db with
          ipsws := db.ipsws ++ [{ v with id := db.nextIpswId }],
          nextIpswId := db.nextIpswId + 1 },
        { v with id := db.nextIpswId })) ∧
    (v.id ≠ 0 → (db.ipsws.any fun r => r.id == v.id) = true →
      Save db v = Except.ok
        ({ db with ipsws := db.ipsws.map fun r => if r.id == v.id then v else r }, v) ∧
      Get { db with ipsws := db.ipsws.map fun r => if r.id == v.id then v else r } v.id
        = Except.ok v) := by
  constructor
  · intro h0
    unfold Save
    rw [if_pos (by simp [h0])]
  · intro hne hany
    have hbeq : (v.id == 0) = false := beq_eq_false_iff_ne.mpr hne
    constructor
    · unfold Save
      rw [if_neg (by simp [hbeq]), if_pos hany]
    · unfold Get
      rw [show ((db.ipsws.map fun r => if r.id == v.id then v else r).find?
            fun r => r.id == v.id) = some v from find?_map_replace hany]

theorem save_spec_witness :
    Save dbOne rowUpd = Except.ok
      ({ dbOne with ipsws := dbOne.ipsws.map fun r => if r.id == rowUpd.id then rowUpd else r },
        rowUpd) ∧
    Get { dbOne with ipsws := dbOne.ipsws.map fun r => if r.id == rowUpd.id then rowUpd else r }
        rowUpd.id = Except.ok rowUpd :=
  (save_spec dbOne rowUpd).2 (by decide) (by rfl)

/-- Claim C6 (code bug): GetByName ignores the requested name.
`First(&i)` with only the non-primary-key `Name` field set adds no
condition, so the function returns the table's first row regardless of
name — here the stored `rowOther`, whose name differs from the
requested one — and signals ErrNotFound only when the table is
empty. -/
theorem getByName_bug :
    GetByName dbOther "iPhone15,2_16.3_20D47_Restore.ipsw" = Except.ok rowOther ∧
    rowOther.name ≠ "iPhone15,2_16.3_20D47_Restore.ipsw" ∧
    GetByName emptyDB "iPhone15,2_16.3_20D47_Restore.ipsw"
      = Except.error DBError.notFound :=
  ⟨rfl, by decide, rfl⟩

/-- Claim C9: Get by primary key returns the zero-value record as a
success — never an explicit not-found signal — when no Artifact with
that identity is stored. -/
theorem get_missing_returns_zero (db : DB) (k : Nat)
    (h : ∀ r ∈ db.ipsws, r.id ≠ k) : Get db k = Except.ok zeroIpsw := by
  unfold Get
  have hf : db.ipsws.find? (fun r => r.id == k) = none := by
    rw [List.find?_eq_none]
    intro r hr
    simp [h r hr]
  rw [hf]

theorem get_missing_returns_zero_witness :
    Get dbOne 42 = Except.ok zeroIpsw :=
  get_missing_returns_zero dbOne 42 (by decide)

/-- Claim C8: Delete succeeds (returns no error) for every key,
including a key with no stored Artifact row; it removes exactly the
Artifact rows with that identity and leaves every
Device/Kernelcache/SharedCache/BinaryImage/Symbol row (and the
image-symbol association) untouched. -/
theorem delete_spec (db : DB) (k : Nat) :
    (Delete db k none).2 = none ∧
    (Delete db k none).1.ipsws = db.ipsws.filter (fun r => !(r.id == k)) ∧
    (∀ r ∈ (Delete db k none).1.ipsws, r.id ≠ k) ∧
    (Delete db k none).1.devices = db.devices ∧
    (Delete db k none).1.kernelcaches = db.kernelcaches ∧
    (Delete db k none).1.sharedCaches = db.sharedCaches ∧
    (Delete db k none).1.machos = db.machos ∧
    (Delete db k none).1.symbols = db.symbols ∧
    (Delete db k none).1.machoSyms = db.machoSyms := by
  refine ⟨rfl, rfl, ?_, rfl, rfl, rfl, rfl, rfl, rfl⟩
  intro r hr
  have hr2 : r ∈ db.ipsws.filter (fun r => !(r.id == k)) := hr
  have hp := List.of_mem_filter hr2
  simpa using hp

/-- Claim C10: Delete unconditionally reports success — the result of
the underlying storage delete, even a storage failure, is discarded and
the returned error is nil for every key. -/
theorem delete_swallows_errors (db : DB) (k : Nat) (fault : Option DBError) :
    (Delete db k fault).2 = none := by
  cases fault <;> rfl

end IpswDB
